import Mathlib

/-!
Verification of the cocktail vector-search layer
(`src/utils/vector_search_api.py`, with the external embedder interface from
`src/utils/cocktail_data_embedder.py`).

The Python methods of `CocktailVectorSearch` are embedded shallowly: the
backing store's stored SQL functions are not part of the repository's source,
so their responses are abstracted into a `DbBehavior` record (rows returned or
an exception raised), while every piece of control flow written in the Python
file itself — the `ILIKE ... LIMIT 1` anchor lookup, the truthiness-based
field conversions, the `try/except/finally` structure that turns any storage
exception into an empty list and closes the cursor and connection — is
translated directly.
-/

/-- Python `x or ""` applied to a nullable string column (`row[3] or ""`). -/
def pyOrEmpty (o : Option String) : String :=
  match o with
  | none => ""
  | some s => s

/-- Python `float(x) if x else None` applied to a nullable numeric column:
`None` stays `None`, and a stored value of exactly `0` is falsy, so it is
also converted to `None`. -/
def pyTruthyFloat (o : Option ℚ) : Option ℚ :=
  match o with
  | none => none
  | some x => if x = 0 then none else some x

/-- Python `x if x else []` applied to a nullable list column. -/
def pyTruthyList (o : Option (List String)) : List String :=
  match o with
  | none => []
  | some l => l

/-- Python truthiness of an optional vector (`if not flavor_embedding`):
`None` and the empty list are both falsy. -/
def embTruthy (o : Option (List ℚ)) : Bool :=
  match o with
  | none => false
  | some [] => false
  | some (_ :: _) => true

/-- ASCII lower-casing of one character (case folding used by `ILIKE`). -/
def lcChar (c : Char) : Char :=
  if 'A' ≤ c ∧ c ≤ 'Z' then Char.ofNat (c.toNat + 32) else c

/-- Lower-cased character list of a string. -/
def lowerChars (s : String) : List Char :=
  s.toList.map lcChar

/-- `matchFront needle hay` holds when `needle` occurs at the front of `hay`. -/
def matchFront : List Char → List Char → Bool
  | [], _ => true
  | _ :: _, [] => false
  | n :: ns, h :: hs => n == h && matchFront ns hs

/-- `subIn needle hay` holds when `needle` occurs contiguously inside `hay`. -/
def subIn (needle hay : List Char) : Bool :=
  match hay with
  | [] => matchFront needle []
  | _ :: hs => matchFront needle hay || subIn needle hs

/-- The predicate of `name ILIKE '%pat%'`: case-insensitive substring match
of the pattern against the record name. -/
def ilikeContains (name pat : String) : Bool :=
  subIn (lowerChars pat) (lowerChars name)

/-- The rows of the `cocktails` table visible to the anchor lookup:
`(id, name)` pairs in the table's scan order. -/
structure Store where
  cocktails : List (Nat × String)
deriving DecidableEq

/-- `SELECT id FROM cocktails WHERE name ILIKE %pat% LIMIT 1`: the first row
in scan order whose name contains the pattern case-insensitively (the query
has no ORDER BY, so "first" is the store's scan order). -/
def anchorLookup (rows : List (Nat × String)) (pat : String) : Option Nat :=
  match rows with
  | [] => none
  | r :: rs => if ilikeContains r.2 pat then some r.1 else anchorLookup rs pat

/-- A row of the stored function `find_similar_cocktails_by_flavor`, in the
column order the Python code indexes it. -/
structure SimilarRow where
  id : Nat
  name : String
  score : ℚ
  descr : Option String
  abv : Option ℚ
  method : Option String
  glass : Option String
deriving DecidableEq

/-- A row of the stored function `search_cocktails_by_flavor_text`. -/
structure TextRow where
  id : Nat
  name : String
  score : ℚ
  descr : Option String
  tags : Option (List String)
  method : Option String
deriving DecidableEq

/-- A row of the stored function `find_cocktails_by_ingredient_similarity`. -/
structure IngSimRow where
  id : Nat
  name : String
  matching : Nat
  total : Nat
  pct : ℚ
  descr : Option String
deriving DecidableEq

/-- A row of the stored function `get_ingredient_recommendations`. -/
structure IngRecRow where
  id : Nat
  name : String
  category : Option String
  score : ℚ
  descr : Option String
  strength : Option ℚ
deriving DecidableEq

/-- A row of the stored function `find_cocktails_by_preferences`. -/
structure PrefRow where
  id : Nat
  name : String
  abv : Option ℚ
  descr : Option String
  method : Option String
  tags : Option (List String)
deriving DecidableEq

/-- One ingredient object of the `ingredients` array built by the
`get_cocktail_details` SQL. -/
structure IngLine where
  name : String
  amount : Option String
  units : Option String
  category : Option String
  optional : Bool
  note : Option String
deriving DecidableEq

/-- The row fetched by `get_cocktail_details` (only the positions the Python
code reads: `result[0..3]`, `result[7..14]`, `result[-1]`). -/
structure DetailRow where
  id : Nat
  oldId : String
  name : String
  instructions : Option String
  descr : Option String
  source : Option String
  garnish : Option String
  abv : Option ℚ
  tags : Option (List String)
  glass : Option String
  method : Option String
  utensils : Option (List String)
  ingredients : Option (List IngLine)
deriving DecidableEq

/-- The `CocktailMatch` dataclass. -/
structure CocktailMatch where
  cocktail_id : Nat
  cocktail_name : String
  similarity_score : ℚ
  description : String
  abv : Option ℚ
  method : Option String
  glass : Option String
  tags : Option (List String)
deriving DecidableEq

/-- The `IngredientMatch` dataclass. -/
structure IngredientMatch where
  ingredient_id : Nat
  ingredient_name : String
  similarity_score : ℚ
  category : String
  description : String
  strength : Option ℚ
deriving DecidableEq

/-- The result dict of `find_cocktails_by_ingredient_similarity`. -/
structure IngSimDict where
  cocktail_id : Nat
  cocktail_name : String
  matching_ingredients : Nat
  total_ingredients : Nat
  match_percentage : ℚ
  description : String
deriving DecidableEq

/-- The result dict of `find_cocktails_by_preferences`. -/
structure PrefDict where
  cocktail_id : Nat
  cocktail_name : String
  abv : Option ℚ
  description : String
  method : Option String
  tags : List String
deriving DecidableEq

/-- The result dict of `get_cocktail_details`. -/
structure DetailsDict where
  id : Nat
  oldId : String
  name : String
  instructions : Option String
  description : Option String
  source : Option String
  garnish : Option String
  abv : Option ℚ
  tags : List String
  glass : Option String
  method : Option String
  utensils : List String
  ingredients : List IngLine
deriving DecidableEq

/-- Row-to-dataclass conversion inside `find_similar_cocktails_by_flavor`. -/
def rowToMatch (r : SimilarRow) : CocktailMatch :=
  { cocktail_id := r.id
    cocktail_name := r.name
    similarity_score := r.score
    description := pyOrEmpty r.descr
    abv := pyTruthyFloat r.abv
    method := r.method
    glass := r.glass
    tags := none }

/-- Row conversion inside `search_cocktails_by_flavor_description`. -/
def textRowToMatch (r : TextRow) : CocktailMatch :=
  { cocktail_id := r.id
    cocktail_name := r.name
    similarity_score := r.score
    description := pyOrEmpty r.descr
    abv := none
    method := r.method
    glass := none
    tags := some (pyTruthyList r.tags) }

/-- Row conversion inside `find_cocktails_by_ingredient_similarity`. -/
def ingSimRowToDict (r : IngSimRow) : IngSimDict :=
  { cocktail_id := r.id
    cocktail_name := r.name
    matching_ingredients := r.matching
    total_ingredients := r.total
    match_percentage := r.pct
    description := pyOrEmpty r.descr }

/-- Row conversion inside `get_ingredient_recommendations`. -/
def ingRecRowToMatch (r : IngRecRow) : IngredientMatch :=
  { ingredient_id := r.id
    ingredient_name := r.name
    similarity_score := r.score
    category := pyOrEmpty r.category
    description := pyOrEmpty r.descr
    strength := pyTruthyFloat r.strength }

/-- Row conversion inside `find_cocktails_by_preferences`. -/
def prefRowToDict (r : PrefRow) : PrefDict :=
  { cocktail_id := r.id
    cocktail_name := r.name
    abv := pyTruthyFloat r.abv
    description := pyOrEmpty r.descr
    method := r.method
    tags := pyTruthyList r.tags }

/-- Row conversion inside `get_cocktail_details`. -/
def detailRowToDict (r : DetailRow) : DetailsDict :=
  { id := r.id
    oldId := r.oldId
    name := r.name
    instructions := r.instructions
    description := r.descr
    source := r.source
    garnish := r.garnish
    abv := pyTruthyFloat r.abv
    tags := pyTruthyList r.tags
    glass := r.glass
    method := r.method
    utensils := pyTruthyList r.utensils
    ingredients := match r.ingredients with
      | none => []
      | some l => l }

/-- The SQL statements issued by this repository, one constructor per
`cur.execute` call site: the seven statements of `CocktailVectorSearch` are
all SELECTs; `insertCocktail` is the loader's upsert from
`cocktail_data_embedder.py` (`INSERT INTO cocktails ... ON CONFLICT`). -/
inductive Stmt where
  | selectCocktailIdByName (pat : String)
  | selectSimilarByFlavor (cocktailId : Nat) (threshold : ℚ) (maxResults : Nat)
  | selectByFlavorText (text : String) (emb : List ℚ) (maxResults : Nat) (threshold : ℚ)
  | selectByIngredientSim (ingredients : List String) (threshold : ℚ) (maxResults : Nat)
  | selectIngredientRecs (cocktailId : Nat) (maxResults : Nat)
  | selectByPreferences (minS maxS : ℚ) (excluded required : List String) (maxResults : Nat)
  | selectCocktailDetails (cocktailId : Nat)
  | insertCocktail (id : Nat) (name : String)
deriving DecidableEq

/-- Whether a statement writes to the store (only the loader's upsert does). -/
def Stmt.writes : Stmt → Bool
  | .insertCocktail _ _ => true
  | _ => false

/-- Effect of one statement on the store: SELECTs leave it unchanged, the
loader's upsert replaces the row with the same id or appends a new row. -/
def applyStmt (st : Store) (s : Stmt) : Store :=
  match s with
  | .insertCocktail i n =>
      if st.cocktails.any (fun r => r.1 = i) then
        ⟨st.cocktails.map (fun r => if r.1 = i then (i, n) else r)⟩
      else ⟨st.cocktails ++ [(i, n)]⟩
  | _ => st

/-- Store reached after executing a list of statements. -/
def runTrace (st : Store) (tr : List Stmt) : Store :=
  tr.foldl applyStmt st

/-- Responses of the backing store and of the external embedding service for
one execution: each field is the outcome of the corresponding statement or
call (`.error ()` models the call raising an exception). -/
structure DbBehavior where
  connectOk : Bool
  anchorFails : Bool
  similarResp : Except Unit (List SimilarRow)
  textResp : Except Unit (List TextRow)
  ingSimResp : Except Unit (List IngSimRow)
  ingRecResp : Except Unit (List IngRecRow)
  prefResp : Except Unit (List PrefRow)
  detailsResp : Except Unit (Option DetailRow)
  embedSvc : Option (List ℚ)

/-- Outcome of a Python call: a returned value, or an exception that
propagates out of the method. -/
inductive PyOutcome (α : Type) where
  | ok (a : α)
  | exn
deriving DecidableEq

/-- Outcome and statement trace of a `try` block body. -/
structure TryOut (α : Type) where
  out : PyOutcome α
  trace : List Stmt

/-- The `except Exception: ... return fallback` clause: an exception raised in
the body is caught and the fallback value returned. -/
def handleExcept (fallback : α) (r : TryOut α) : TryOut α :=
  match r.out with
  | .exn => { out := .ok fallback, trace := r.trace }
  | .ok a => r

/-- Final state of one method call: the returned value or propagated
exception, whether the connection and cursor are still open, and the
statements that reached the store. -/
structure ExecResult (α : Type) where
  out : PyOutcome α
  connOpen : Bool
  curOpen : Bool
  trace : List Stmt

/-- The skeleton shared by the store-backed methods:
`conn = self.get_connection(); cur = conn.cursor()` (a connection failure
propagates with nothing opened), then `try: body except: return fallback
finally: cur.close(); conn.close()`. -/
def withConnCursor (db : DbBehavior) (fallback : α) (body : TryOut α) : ExecResult α :=
  if db.connectOk then
    let r := handleExcept fallback body
    { out := r.out, connOpen := false, curOpen := false, trace := r.trace }
  else
    { out := .exn, connOpen := false, curOpen := false, trace := [] }

/-- Try-block body of `find_similar_cocktails_by_flavor`: anchor lookup by
`ILIKE`, early empty return when the anchor is missing, then the stored
similarity function; any raising statement becomes an exception outcome. -/
def find_similar_try (st : Store) (db : DbBehavior) (cocktail_name : String)
    (similarity_threshold : ℚ) (max_results : Nat) : TryOut (List CocktailMatch) :=
  let t0 := [Stmt.selectCocktailIdByName cocktail_name]
  if db.anchorFails then { out := .exn, trace := t0 }
  else
    match anchorLookup st.cocktails cocktail_name with
    | none => { out := .ok [], trace := t0 }
    | some cid =>
      let t1 := t0 ++ [Stmt.selectSimilarByFlavor cid similarity_threshold max_results]
      match db.similarResp with
      | .error _ => { out := .exn, trace := t1 }
      | .ok rows => { out := .ok (rows.map rowToMatch), trace := t1 }

/-- `CocktailVectorSearch.find_similar_cocktails_by_flavor`. -/
def find_similar_cocktails_by_flavor (st : Store) (db : DbBehavior) (cocktail_name : String)
    (max_results : Nat) (similarity_threshold : ℚ) : ExecResult (List CocktailMatch) :=
  withConnCursor db [] (find_similar_try st db cocktail_name similarity_threshold max_results)

/-- Python `not text or text.strip() == ""`: the text is empty or all
whitespace. -/
def isBlank (s : String) : Bool :=
  s.toList.all (fun c => c.isWhitespace)

/-- `CocktailVectorEmbedder.get_embedding`: `None` for blank text, the
service's vector otherwise, `None` when the external call raises. -/
def get_embedding (svc : Option (List ℚ)) (text : String) : Option (List ℚ) :=
  if isBlank text then none else svc

/-- `CocktailVectorSearch.search_cocktails_by_flavor_description`. Everything
— embedding call, connection, execution — happens inside the `try`, whose
`except` returns `[]`; the `finally` closes whatever of `cur`/`conn` exists
in `locals()`. -/
def search_cocktails_by_flavor_description (st : Store) (db : DbBehavior)
    (flavor_description : String) (max_results : Nat) (similarity_threshold : ℚ) :
    ExecResult (List CocktailMatch) :=
  let emb := get_embedding db.embedSvc flavor_description
  if embTruthy emb = false then
    { out := .ok [], connOpen := false, curOpen := false, trace := [] }
  else
    if db.connectOk then
      let t := [Stmt.selectByFlavorText flavor_description (emb.getD []) max_results
        similarity_threshold]
      match db.textResp with
      | .error _ => { out := .ok [], connOpen := false, curOpen := false, trace := t }
      | .ok rows =>
        { out := .ok (rows.map textRowToMatch), connOpen := false, curOpen := false, trace := t }
    else
      { out := .ok [], connOpen := false, curOpen := false, trace := [] }

/-- `CocktailVectorSearch.find_cocktails_by_ingredient_similarity`. -/
def find_cocktails_by_ingredient_similarity (st : Store) (db : DbBehavior)
    (ingredients : List String) (similarity_threshold : ℚ) (max_results : Nat) :
    ExecResult (List IngSimDict) :=
  withConnCursor db []
    (let t := [Stmt.selectByIngredientSim ingredients similarity_threshold max_results]
     match db.ingSimResp with
     | .error _ => { out := .exn, trace := t }
     | .ok rows => { out := .ok (rows.map ingSimRowToDict), trace := t })

/-- Try-block body of `get_ingredient_recommendations`: same anchor lookup as
`find_similar_cocktails_by_flavor`, then the stored recommendation
function. -/
def ingredient_recs_try (st : Store) (db : DbBehavior) (cocktail_name : String)
    (max_results : Nat) : TryOut (List IngredientMatch) :=
  let t0 := [Stmt.selectCocktailIdByName cocktail_name]
  if db.anchorFails then { out := .exn, trace := t0 }
  else
    match anchorLookup st.cocktails cocktail_name with
    | none => { out := .ok [], trace := t0 }
    | some cid =>
      let t1 := t0 ++ [Stmt.selectIngredientRecs cid max_results]
      match db.ingRecResp with
      | .error _ => { out := .exn, trace := t1 }
      | .ok rows => { out := .ok (rows.map ingRecRowToMatch), trace := t1 }

/-- `CocktailVectorSearch.get_ingredient_recommendations`. -/
def get_ingredient_recommendations (st : Store) (db : DbBehavior) (cocktail_name : String)
    (max_results : Nat) : ExecResult (List IngredientMatch) :=
  withConnCursor db [] (ingredient_recs_try st db cocktail_name max_results)

/-- `CocktailVectorSearch.find_cocktails_by_preferences`. The `None` defaults
of the two list arguments are normalised to `[]`; the bounds are passed to
the store exactly as given, with no validation. -/
def find_cocktails_by_preferences (st : Store) (db : DbBehavior)
    (preferred_strength_min preferred_strength_max : ℚ)
    (excluded_categories required_tags : Option (List String)) (max_results : Nat) :
    ExecResult (List PrefDict) :=
  let excluded := match excluded_categories with | none => [] | some l => l
  let required := match required_tags with | none => [] | some l => l
  withConnCursor db []
    (let t := [Stmt.selectByPreferences preferred_strength_min preferred_strength_max
        excluded required max_results]
     match db.prefResp with
     | .error _ => { out := .exn, trace := t }
     | .ok rows => { out := .ok (rows.map prefRowToDict), trace := t })

/-- `CocktailVectorSearch.get_cocktail_details`. -/
def get_cocktail_details (st : Store) (db : DbBehavior) (cocktail_id : Nat) :
    ExecResult (Option DetailsDict) :=
  withConnCursor db none
    (let t := [Stmt.selectCocktailDetails cocktail_id]
     match db.detailsResp with
     | .error _ => { out := .exn, trace := t }
     | .ok none => { out := .ok none, trace := t }
     | .ok (some row) => { out := .ok (some (detailRowToDict row)), trace := t })

/-! ### Spec-modelled similarity scoring

The stored SQL functions that compute similarity scores
(`find_similar_cocktails_by_flavor`, `search_cocktails_by_flavor_text`,
`get_ingredient_recommendations` on the database side) are not part of the
repository's source tree; only their callers are. Following the spec — which
adopts cosine similarity rescaled to `[0,1]` with `0` = orthogonal and `1` =
identical — the value in each returned row's score column is modelled as a
rescaled cosine of two stored embedding vectors. -/

/-- Dot product of two fixed-dimension rational vectors. -/
def dotF {n : Nat} (u v : Fin n → ℚ) : ℚ :=
  ∑ i, u i * v i

/-- Squared Euclidean norm of a vector. -/
def normSqF {n : Nat} (u : Fin n → ℚ) : ℚ :=
  dotF u u

/-- `c` is the cosine of the angle between `u` and `v`, characterised without
square roots: both vectors are nonzero, `c² · ‖u‖²‖v‖² = ⟨u,v⟩²`, and `c`
has the sign of `⟨u,v⟩`. -/
def IsCosineOf {n : Nat} (u v : Fin n → ℚ) (c : ℚ) : Prop :=
  0 < normSqF u ∧ 0 < normSqF v ∧
    c ^ 2 * (normSqF u * normSqF v) = dotF u v ^ 2 ∧ 0 ≤ c * dotF u v

/-- Modelled from the spec: the engine's score convention, raw cosine
rescaled from `[-1,1]` to `[0,1]`. -/
def rescaleScore (c : ℚ) : ℚ :=
  (1 + c) / 2

/-- A score value the spec-modelled store may emit: the rescaled cosine of
some pair of embedding vectors. -/
def ScoreValid (s : ℚ) : Prop :=
  ∃ (n : Nat) (u v : Fin n → ℚ) (c : ℚ), IsCosineOf u v c ∧ s = rescaleScore c

/-- Modelled from the spec: a store behaviour whose similarity-bearing rows
(of the three score-returning stored functions) all carry spec-conforming
scores. -/
def SpecScores (db : DbBehavior) : Prop :=
  (∀ rows, db.similarResp = .ok rows → ∀ r ∈ rows, ScoreValid r.score) ∧
  (∀ rows, db.textResp = .ok rows → ∀ r ∈ rows, ScoreValid r.score) ∧
  (∀ rows, db.ingRecResp = .ok rows → ∀ r ∈ rows, ScoreValid r.score)

/-! ### Spec-modelled ingredient-overlap matcher

The scoring of `find_cocktails_by_ingredient_similarity` happens in a stored
SQL function that is not part of the source tree; the matcher is modelled
from §4.3 of the spec. -/

/-- A cocktail record as the overlap matcher sees it: id, name and the list
of its ingredient names. -/
structure CocktailRec where
  id : Nat
  name : String
  ingredients : List String
deriving DecidableEq

/-- Modelled from the spec: number of distinct requested ingredient names
found among the record's ingredient names by case-insensitive substring
match. -/
def matchedCountOf (query : List String) (recIngs : List String) : Nat :=
  ((query.map lowerChars).dedup.filter
    (fun q => recIngs.any (fun ing => subIn q (lowerChars ing)))).length

/-- An entry of the overlap matcher's result: the record together with its
matched count, total count and match fraction. -/
structure OverlapEntry where
  record : CocktailRec
  matchedCount : Nat
  totalCount : Nat
  matchFraction : ℚ
deriving DecidableEq

/-- Modelled from the spec: score one record — `matchedCount` distinct
requested names found, `totalCount` the record's ingredient count, and
`matchFraction = matchedCount / totalCount`, defined as `0` when
`totalCount` is `0`. -/
def scoreRecord (query : List String) (r : CocktailRec) : OverlapEntry :=
  let m := matchedCountOf query r.ingredients
  let t := r.ingredients.length
  { record := r, matchedCount := m, totalCount := t
    matchFraction := if t = 0 then 0 else (m : ℚ) / t }

/-- Result order of the overlap matcher: match fraction descending, then
matched count descending, then ascending id. -/
def entryBefore (a b : OverlapEntry) : Bool :=
  if a.matchFraction = b.matchFraction then
    if a.matchedCount = b.matchedCount then decide (a.record.id ≤ b.record.id)
    else decide (b.matchedCount < a.matchedCount)
  else decide (b.matchFraction < a.matchFraction)

/-- Ordered insertion for the overlap matcher's sort. -/
def insertEntry (e : OverlapEntry) : List OverlapEntry → List OverlapEntry
  | [] => [e]
  | x :: xs => if entryBefore e x then e :: x :: xs else x :: insertEntry e xs

/-- Insertion sort of overlap entries by `entryBefore`. -/
def sortEntries : List OverlapEntry → List OverlapEntry
  | [] => []
  | x :: xs => insertEntry x (sortEntries xs)

/-- Modelled from the spec: `findByIngredients` — score every record, keep
those with `matchFraction ≥ minMatchFraction`, order by fraction descending
(ties: matched count descending, then ascending id), truncate to
`maxResults`. -/
def findByIngredients (recs : List CocktailRec) (query : List String)
    (minMatchFraction : ℚ) (maxResults : Nat) : List OverlapEntry :=
  (sortEntries ((recs.map (scoreRecord query)).filter
    (fun e => decide (minMatchFraction ≤ e.matchFraction)))).take maxResults

/-! ### Concrete inputs used by counterexamples and witnesses -/

/-- A behaviour where connecting succeeds, no statement raises, every stored
function returns no rows, and the embedding service yields a vector. -/
def dbAllEmpty : DbBehavior :=
  { connectOk := true
    anchorFails := false
    similarResp := .ok []
    textResp := .ok []
    ingSimResp := .ok []
    ingRecResp := .ok []
    prefResp := .ok []
    detailsResp := .ok none
    embedSvc := some [1] }

/-- A one-row store holding only the cocktail `(1, "Margarita")`. -/
def stMargarita : Store :=
  ⟨[(1, "Margarita")]⟩

/-- A store whose scan order lists `(2, "Margarita Spritz")` before the
exact-name row `(1, "Margarita")`. -/
def stTwoMargaritas : Store :=
  ⟨[(2, "Margarita Spritz"), (1, "Margarita")]⟩

/-- A similarity row carrying the maximal score `1`. -/
def wRowScoreOne : SimilarRow :=
  { id := 2, name := "Daiquiri", score := 1, descr := none, abv := none
    method := none, glass := none }

/-- A behaviour whose similarity query returns the single row
`wRowScoreOne`. -/
def dbScoreOne : DbBehavior :=
  { dbAllEmpty with similarResp := .ok [wRowScoreOne] }

/-- A behaviour where connecting succeeds but every stored-function
statement raises. -/
def dbStmtsFail : DbBehavior :=
  { dbAllEmpty with
    similarResp := Except.error ()
    textResp := Except.error ()
    ingSimResp := Except.error ()
    ingRecResp := Except.error ()
    prefResp := Except.error () }

/-- A behaviour where the external embedding call fails (returns `None`). -/
def dbEmbedFail : DbBehavior :=
  { dbAllEmpty with embedSvc := none }

/-- The record of the spec's worked overlap example: ingredients gin, lime
and soda. -/
def ginRickey : CocktailRec :=
  { id := 1, name := "Gin Rickey", ingredients := ["gin", "lime", "soda"] }

/-! ### Helper lemmas -/

/-- Cauchy–Schwarz for the dot product: `⟨u,v⟩² ≤ ‖u‖²‖v‖²`. -/
theorem dotF_sq_le_normSq_mul_normSq {n : Nat} (u v : Fin n → ℚ) :
    dotF u v ^ 2 ≤ normSqF u * normSqF v := by
  have h := Finset.sum_mul_sq_le_sq_mul_sq Finset.univ u v
  simpa [dotF, normSqF, pow_two] using h

/-- A cosine value lies in `[-1, 1]`. -/
theorem isCosineOf_bounds {n : Nat} {u v : Fin n → ℚ} {c : ℚ}
    (h : IsCosineOf u v c) : -1 ≤ c ∧ c ≤ 1 := by
  obtain ⟨hu, hv, hc, _⟩ := h
  have hP : 0 < normSqF u * normSqF v := mul_pos hu hv
  have hcs := dotF_sq_le_normSq_mul_normSq u v
  have hsq : c ^ 2 ≤ 1 := by
    have : c ^ 2 * (normSqF u * normSqF v) ≤ 1 * (normSqF u * normSqF v) := by
      rw [hc, one_mul]; exact hcs
    exact le_of_mul_le_mul_right (by simpa using this) hP
  constructor
  · nlinarith [sq_nonneg (c + 1)]
  · nlinarith [sq_nonneg (c - 1)]

/-- Any spec-conforming score lies in `[0, 1]`. -/
theorem scoreValid_bounds {s : ℚ} (h : ScoreValid s) : 0 ≤ s ∧ s ≤ 1 := by
  obtain ⟨n, u, v, c, hc, rfl⟩ := h
  obtain ⟨h1, h2⟩ := isCosineOf_bounds hc
  constructor
  · unfold rescaleScore; linarith
  · unfold rescaleScore; linarith

/-- The score `1` is a spec-conforming score (cosine of a vector with
itself). -/
theorem scoreValid_one : ScoreValid 1 := by
  refine ⟨1, fun _ => 1, fun _ => 1, 1, ⟨?_, ?_, ?_, ?_⟩, ?_⟩
  · simp [normSqF, dotF]
  · simp [normSqF, dotF]
  · simp [normSqF, dotF]
  · simp [dotF]
  · unfold rescaleScore; norm_num

/-- Membership in an ordered insertion. -/
theorem mem_insertEntry {y e : OverlapEntry} {l : List OverlapEntry} :
    y ∈ insertEntry e l ↔ y = e ∨ y ∈ l := by
  induction l with
  | nil => simp [insertEntry]
  | cons x xs ih =>
    by_cases h : entryBefore e x
    · simp [insertEntry, h]
    · simp [insertEntry, h, ih]
      tauto

/-- Sorting preserves membership. -/
theorem mem_sortEntries {y : OverlapEntry} {l : List OverlapEntry} :
    y ∈ sortEntries l ↔ y ∈ l := by
  induction l with
  | nil => simp [sortEntries]
  | cons x xs ih => simp [sortEntries, mem_insertEntry, ih]

/-- Every entry the overlap matcher returns comes from scoring one of the
supplied records. -/
theorem mem_findByIngredients {recs : List CocktailRec} {query : List String}
    {minFrac : ℚ} {maxR : Nat} {e : OverlapEntry}
    (h : e ∈ findByIngredients recs query minFrac maxR) :
    ∃ r ∈ recs, e = scoreRecord query r := by
  unfold findByIngredients at h
  have h1 := List.mem_of_mem_take h
  rw [mem_sortEntries] at h1
  have h2 := List.mem_of_mem_filter h1
  obtain ⟨r, hr, he⟩ := List.mem_map.mp h2
  exact ⟨r, hr, he.symm⟩

/-- `handleExcept` keeps the trace of the body. -/
theorem handleExcept_trace {α : Type} (f : α) (r : TryOut α) :
    (handleExcept f r).trace = r.trace := by
  unfold handleExcept; split <;> rfl

/-- The shared connection skeleton always ends with the connection and the
cursor closed. -/
theorem withConnCursor_closed {α : Type} (db : DbBehavior) (f : α) (b : TryOut α) :
    (withConnCursor db f b).connOpen = false ∧ (withConnCursor db f b).curOpen = false := by
  unfold withConnCursor; split <;> exact ⟨rfl, rfl⟩

/-- A statement that does not write leaves the store unchanged. -/
theorem applyStmt_of_reads {s : Stmt} (h : s.writes = false) (st : Store) :
    applyStmt st s = st := by
  cases s <;> simp_all [Stmt.writes, applyStmt]

/-- A trace of read-only statements leaves the store unchanged. -/
theorem runTrace_of_reads {tr : List Stmt} (h : ∀ s ∈ tr, s.writes = false) (st : Store) :
    runTrace st tr = st := by
  induction tr generalizing st with
  | nil => rfl
  | cons s rest ih =>
    have hs : s.writes = false := h s (List.mem_cons_self s rest)
    have hrest : ∀ x ∈ rest, x.writes = false := fun x hx => h x (List.mem_cons_of_mem s hx)
    show runTrace (applyStmt st s) rest = st
    rw [applyStmt_of_reads hs]
    exact ih hrest st

/-- Every statement `find_similar_cocktails_by_flavor` issues is a read. -/
theorem find_similar_trace_reads (st : Store) (db : DbBehavior) (nm : String)
    (mx : Nat) (thr : ℚ) :
    ∀ s ∈ (find_similar_cocktails_by_flavor st db nm mx thr).trace, s.writes = false := by
  intro s hs
  unfold find_similar_cocktails_by_flavor withConnCursor at hs
  by_cases hc : db.connectOk
  · simp only [hc, if_true, handleExcept_trace] at hs
    unfold find_similar_try at hs
    by_cases ha : db.anchorFails
    · simp only [ha, if_true] at hs
      simp at hs; subst hs; rfl
    · simp only [ha, if_false] at hs
      cases hal : anchorLookup st.cocktails nm with
      | none => simp [hal] at hs; subst hs; rfl
      | some cid =>
        simp only [hal] at hs
        cases hr : db.similarResp with
        | error e => simp [hr] at hs; rcases hs with h | h <;> subst h <;> rfl
        | ok rows => simp [hr] at hs; rcases hs with h | h <;> subst h <;> rfl
  · simp [hc] at hs

/-- Every statement `search_cocktails_by_flavor_description` issues is a
read. -/
theorem search_text_trace_reads (st : Store) (db : DbBehavior) (txt : String)
    (mx : Nat) (thr : ℚ) :
    ∀ s ∈ (search_cocktails_by_flavor_description st db txt mx thr).trace, s.writes = false := by
  intro s hs
  unfold search_cocktails_by_flavor_description at hs
  by_cases he : embTruthy (get_embedding db.embedSvc txt) = false
  · simp [he] at hs
  · simp only [he, if_false] at hs
    by_cases hc : db.connectOk
    · simp only [hc, if_true] at hs
      cases hr : db.textResp with
      | error e => simp [hr] at hs; subst hs; rfl
      | ok rows => simp [hr] at hs; subst hs; rfl
    · simp [hc] at hs

/-- Every statement `find_cocktails_by_ingredient_similarity` issues is a
read. -/
theorem ing_sim_trace_reads (st : Store) (db : DbBehavior) (ings : List String)
    (thr : ℚ) (mx : Nat) :
    ∀ s ∈ (find_cocktails_by_ingredient_similarity st db ings thr mx).trace, s.writes = false := by
  intro s hs
  unfold find_cocktails_by_ingredient_similarity withConnCursor at hs
  by_cases hc : db.connectOk
  · simp only [hc, if_true, handleExcept_trace] at hs
    cases hr : db.ingSimResp with
    | error e => simp [hr] at hs; subst hs; rfl
    | ok rows => simp [hr] at hs; subst hs; rfl
  · simp [hc] at hs

/-- Every statement `get_ingredient_recommendations` issues is a read. -/
theorem ing_recs_trace_reads (st : Store) (db : DbBehavior) (nm : String) (mx : Nat) :
    ∀ s ∈ (get_ingredient_recommendations st db nm mx).trace, s.writes = false := by
  intro s hs
  unfold get_ingredient_recommendations withConnCursor at hs
  by_cases hc : db.connectOk
  · simp only [hc, if_true, handleExcept_trace] at hs
    unfold ingredient_recs_try at hs
    by_cases ha : db.anchorFails
    · simp only [ha, if_true] at hs
      simp at hs; subst hs; rfl
    · simp only [ha, if_false] at hs
      cases hal : anchorLookup st.cocktails nm with
      | none => simp [hal] at hs; subst hs; rfl
      | some cid =>
        simp only [hal] at hs
        cases hr : db.ingRecResp with
        | error e => simp [hr] at hs; rcases hs with h | h <;> subst h <;> rfl
        | ok rows => simp [hr] at hs; rcases hs with h | h <;> subst h <;> rfl
  · simp [hc] at hs

/-- Every statement `find_cocktails_by_preferences` issues is a read. -/
theorem pref_trace_reads (st : Store) (db : DbBehavior) (minS maxS : ℚ)
    (exc req : Option (List String)) (mx : Nat) :
    ∀ s ∈ (find_cocktails_by_preferences st db minS maxS exc req mx).trace, s.writes = false := by
  intro s hs
  unfold find_cocktails_by_preferences withConnCursor at hs
  by_cases hc : db.connectOk
  · simp only [hc, if_true, handleExcept_trace] at hs
    cases hr : db.prefResp with
    | error e => simp [hr] at hs; subst hs; rfl
    | ok rows => simp [hr] at hs; subst hs; rfl
  · simp [hc] at hs

/-- Every statement `get_cocktail_details` issues is a read. -/
theorem details_trace_reads (st : Store) (db : DbBehavior) (cid : Nat) :
    ∀ s ∈ (get_cocktail_details st db cid).trace, s.writes = false := by
  intro s hs
  unfold get_cocktail_details withConnCursor at hs
  by_cases hc : db.connectOk
  · simp only [hc, if_true, handleExcept_trace] at hs
    cases hr : db.detailsResp with
    | error e => simp [hr] at hs; subst hs; rfl
    | ok orow => cases orow <;> simp [hr] at hs <;> subst hs <;> rfl
  · simp [hc] at hs

/-- A successful result of `find_similar_cocktails_by_flavor` is either the
empty list or the converted rows of the stored similarity function. -/
theorem find_similar_out_cases (st : Store) (db : DbBehavior) (nm : String)
    (mx : Nat) (thr : ℚ) (ms : List CocktailMatch)
    (h : (find_similar_cocktails_by_flavor st db nm mx thr).out = .ok ms) :
    ms = [] ∨ ∃ rows, db.similarResp = .ok rows ∧ ms = rows.map rowToMatch := by
  unfold find_similar_cocktails_by_flavor withConnCursor at h
  by_cases hc : db.connectOk
  · simp only [hc, if_true] at h
    unfold find_similar_try at h
    by_cases ha : db.anchorFails
    · simp [ha, handleExcept] at h; exact Or.inl h
    · simp only [ha, if_false] at h
      cases hal : anchorLookup st.cocktails nm with
      | none => simp [hal, handleExcept] at h; exact Or.inl h
      | some cid =>
        simp only [hal] at h
        cases hr : db.similarResp with
        | error e => simp [hr, handleExcept] at h; exact Or.inl h
        | ok rows =>
          simp [hr, handleExcept] at h
          exact Or.inr ⟨rows, rfl, h.symm⟩
  · simp [hc] at h

/-- A successful result of `search_cocktails_by_flavor_description` is either
the empty list or the converted rows of the stored text-search function. -/
theorem search_text_out_cases (st : Store) (db : DbBehavior) (txt : String)
    (mx : Nat) (thr : ℚ) (ms : List CocktailMatch)
    (h : (search_cocktails_by_flavor_description st db txt mx thr).out = .ok ms) :
    ms = [] ∨ ∃ rows, db.textResp = .ok rows ∧ ms = rows.map textRowToMatch := by
  unfold search_cocktails_by_flavor_description at h
  by_cases he : embTruthy (get_embedding db.embedSvc txt) = false
  · simp [he] at h; exact Or.inl h
  · simp only [he, if_false] at h
    by_cases hc : db.connectOk
    · simp only [hc, if_true] at h
      cases hr : db.textResp with
      | error e => simp [hr] at h; exact Or.inl h
      | ok rows => simp [hr] at h; exact Or.inr ⟨rows, rfl, h.symm⟩
    · simp [hc] at h; exact Or.inl h

/-- A successful result of `get_ingredient_recommendations` is either the
empty list or the converted rows of the stored recommendation function. -/
theorem ing_recs_out_cases (st : Store) (db : DbBehavior) (nm : String)
    (mx : Nat) (ms : List IngredientMatch)
    (h : (get_ingredient_recommendations st db nm mx).out = .ok ms) :
    ms = [] ∨ ∃ rows, db.ingRecResp = .ok rows ∧ ms = rows.map ingRecRowToMatch := by
  unfold get_ingredient_recommendations withConnCursor at h
  by_cases hc : db.connectOk
  · simp only [hc, if_true] at h
    unfold ingredient_recs_try at h
    by_cases ha : db.anchorFails
    · simp [ha, handleExcept] at h; exact Or.inl h
    · simp only [ha, if_false] at h
      cases hal : anchorLookup st.cocktails nm with
      | none => simp [hal, handleExcept] at h; exact Or.inl h
      | some cid =>
        simp only [hal] at h
        cases hr : db.ingRecResp with
        | error e => simp [hr, handleExcept] at h; exact Or.inl h
        | ok rows =>
          simp [hr, handleExcept] at h
          exact Or.inr ⟨rows, rfl, h.symm⟩
  · simp [hc] at h

/-! ### Claims -/

/-- C1 (counterexample): with a reachable store whose similarity statement
raises (and likewise for the preference query), the operations return a
successful empty result — no typed StorageUnavailable failure is surfaced,
contradicting the claim at this concrete input. -/
theorem C1_cx_storage_error_empty_success :
    (find_similar_cocktails_by_flavor stMargarita
      { dbAllEmpty with similarResp := .error () } "Margarita" 10 (7/10)).out
        = .ok ([] : List CocktailMatch) ∧
    (find_cocktails_by_preferences stMargarita
      { dbAllEmpty with prefResp := .error () } 0 50 none none 15).out
        = .ok ([] : List PrefDict) ∧
    (.ok ([] : List CocktailMatch) : PyOutcome (List CocktailMatch)) ≠ .exn := by
  refine ⟨?_, ?_, ?_⟩
  · rfl
  · rfl
  · intro h; exact PyOutcome.noConfusion h

/-- C1 (amended): when a storage statement raises inside any of the five
query operations, the `except` clause catches it and the operation returns
an empty successful list — indistinguishable from "zero qualifying
records"; no typed StorageUnavailable failure exists. Only a failure to
open the connection itself (which sits before the `try` in all methods
except the free-text search) propagates, as the driver's raw exception; in
the free-text search even that is caught and an empty list returned. -/
theorem C1_storage_error_downgraded_to_empty (st : Store) (db : DbBehavior)
    (nm txt : String) (mx : Nat) (thr minS maxS : ℚ) (ings : List String)
    (exc req : Option (List String)) :
    (db.connectOk = true → db.anchorFails = true →
      (find_similar_cocktails_by_flavor st db nm mx thr).out = .ok [] ∧
      (get_ingredient_recommendations st db nm mx).out = .ok []) ∧
    (db.connectOk = true → db.similarResp = .error () → db.anchorFails = false →
      (find_similar_cocktails_by_flavor st db nm mx thr).out = .ok []) ∧
    (db.connectOk = true → db.ingRecResp = .error () → db.anchorFails = false →
      (get_ingredient_recommendations st db nm mx).out = .ok []) ∧
    (db.connectOk = true → db.ingSimResp = .error () →
      (find_cocktails_by_ingredient_similarity st db ings thr mx).out = .ok []) ∧
    (db.connectOk = true → db.prefResp = .error () →
      (find_cocktails_by_preferences st db minS maxS exc req mx).out = .ok []) ∧
    (embTruthy (get_embedding db.embedSvc txt) = true → db.connectOk = true →
      db.textResp = .error () →
      (search_cocktails_by_flavor_description st db txt mx thr).out = .ok [] ∧
      (search_cocktails_by_flavor_description st db txt mx thr).trace
        = [Stmt.selectByFlavorText txt ((get_embedding db.embedSvc txt).getD []) mx thr]) ∧
    (embTruthy (get_embedding db.embedSvc txt) = true → db.connectOk = false →
      (search_cocktails_by_flavor_description st db txt mx thr).out = .ok []) := by
  refine ⟨?_, ?_, ?_, ?_, ?_, ?_, ?_⟩
  · intro hc ha
    constructor
    · unfold find_similar_cocktails_by_flavor withConnCursor find_similar_try
      simp [hc, ha, handleExcept]
    · unfold get_ingredient_recommendations withConnCursor ingredient_recs_try
      simp [hc, ha, handleExcept]
  · intro hc hr ha
    unfold find_similar_cocktails_by_flavor withConnCursor find_similar_try
    cases hal : anchorLookup st.cocktails nm with
    | none => simp [hc, ha, hal, handleExcept]
    | some cid => simp [hc, ha, hal, hr, handleExcept]
  · intro hc hr ha
    unfold get_ingredient_recommendations withConnCursor ingredient_recs_try
    cases hal : anchorLookup st.cocktails nm with
    | none => simp [hc, ha, hal, handleExcept]
    | some cid => simp [hc, ha, hal, hr, handleExcept]
  · intro hc hr
    unfold find_cocktails_by_ingredient_similarity withConnCursor
    simp [hc, hr, handleExcept]
  · intro hc hr
    unfold find_cocktails_by_preferences withConnCursor
    simp [hc, hr, handleExcept]
  · intro he hc hr
    unfold search_cocktails_by_flavor_description
    simp [he, hc, hr]
  · intro he hc
    unfold search_cocktails_by_flavor_description
    simp [he, hc]

/-- C1 (witness): the amended theorem applied at a concrete reachable-store
behaviour whose storage statements all raise, covering all five query
operations. -/
theorem C1_storage_error_downgraded_to_empty_witness :
    (find_similar_cocktails_by_flavor stMargarita dbStmtsFail "Margarita" 10 (7/10)).out
      = .ok [] ∧
    (get_ingredient_recommendations stMargarita dbStmtsFail "Margarita" 10).out = .ok [] ∧
    (find_cocktails_by_ingredient_similarity stMargarita dbStmtsFail
      ["gin"] (7/10) 10).out = .ok [] ∧
    (find_cocktails_by_preferences stMargarita dbStmtsFail 0 50 none none 15).out = .ok [] ∧
    (search_cocktails_by_flavor_description stMargarita dbStmtsFail
      "citrus and smoke" 10 (1/2)).out = .ok [] :=
  ⟨(C1_storage_error_downgraded_to_empty stMargarita dbStmtsFail "Margarita"
      "citrus and smoke" 10 (7/10) 0 50 ["gin"] none none).2.1 rfl rfl rfl,
   (C1_storage_error_downgraded_to_empty stMargarita dbStmtsFail "Margarita"
      "citrus and smoke" 10 (7/10) 0 50 ["gin"] none none).2.2.1 rfl rfl rfl,
   (C1_storage_error_downgraded_to_empty stMargarita dbStmtsFail "Margarita"
      "citrus and smoke" 10 (7/10) 0 50 ["gin"] none none).2.2.2.1 rfl rfl,
   (C1_storage_error_downgraded_to_empty stMargarita dbStmtsFail "Margarita"
      "citrus and smoke" 10 (7/10) 0 50 ["gin"] none none).2.2.2.2.1 rfl rfl,
   ((C1_storage_error_downgraded_to_empty stMargarita dbStmtsFail "Margarita"
      "citrus and smoke" 10 (1/2) 0 50 ["gin"] none none).2.2.2.2.2.1 rfl rfl rfl).1⟩

/-- C2 (counterexample): with a failing embedding service, the free-text
search returns a successful empty list — no EmbeddingUnavailable error
propagates — contradicting the claim at this concrete input (the trace shows
no substitute query was issued either). -/
theorem C2_cx_embedding_failure_empty_success :
    (search_cocktails_by_flavor_description stMargarita dbEmbedFail
      "citrus and smoke" 10 (1/2)).out = .ok ([] : List CocktailMatch) ∧
    (search_cocktails_by_flavor_description stMargarita dbEmbedFail
      "citrus and smoke" 10 (1/2)).trace = [] ∧
    (search_cocktails_by_flavor_description stMargarita dbEmbedFail
      "citrus and smoke" 10 (1/2)).out ≠ .exn := by
  refine ⟨rfl, rfl, ?_⟩
  intro h
  exact PyOutcome.noConfusion h

/-- C2 (amended): if the embedding call fails, returns an empty vector, or
the query text is blank, `search_cocktails_by_flavor_description` returns an
empty successful list without issuing any store statement; no
EmbeddingUnavailable error propagates and no fallback result set is
substituted. -/
theorem C2_embedding_failure_returns_empty (st : Store) (db : DbBehavior)
    (txt : String) (mx : Nat) (thr : ℚ)
    (h : db.embedSvc = none ∨ db.embedSvc = some [] ∨ isBlank txt = true) :
    (search_cocktails_by_flavor_description st db txt mx thr).out = .ok [] ∧
    (search_cocktails_by_flavor_description st db txt mx thr).trace = [] := by
  have he : embTruthy (get_embedding db.embedSvc txt) = false := by
    rcases h with h | h | h
    · unfold get_embedding; rw [h]; split <;> rfl
    · unfold get_embedding; rw [h]; split <;> rfl
    · unfold get_embedding; rw [h]; rfl
  unfold search_cocktails_by_flavor_description
  simp [he]

/-- C2 (witness): the amended theorem applied at a failing embedding
service. -/
theorem C2_embedding_failure_returns_empty_witness :
    (search_cocktails_by_flavor_description stMargarita dbEmbedFail
      "citrus and smoke" 10 (1/2)).out = .ok [] ∧
    (search_cocktails_by_flavor_description stMargarita dbEmbedFail
      "citrus and smoke" 10 (1/2)).trace = [] :=
  C2_embedding_failure_returns_empty stMargarita dbEmbedFail
    "citrus and smoke" 10 (1/2) (Or.inl rfl)

/-- C3 (counterexample): with a store holding only "Margarita", querying
anchor "Negroni" yields a successful empty result from both anchor-based
operations, not a NotFound error distinct from success — contradicting the
claim at this concrete input. -/
theorem C3_cx_missing_anchor_success_empty :
    (find_similar_cocktails_by_flavor stMargarita dbAllEmpty "Negroni" 10 (7/10)).out
      = .ok ([] : List CocktailMatch) ∧
    (find_similar_cocktails_by_flavor stMargarita dbAllEmpty "Negroni" 10 (7/10)).out
      ≠ .exn ∧
    (get_ingredient_recommendations stMargarita dbAllEmpty "Negroni" 10).out
      = .ok ([] : List IngredientMatch) ∧
    (get_ingredient_recommendations stMargarita dbAllEmpty "Negroni" 10).out
      ≠ .exn := by
  refine ⟨rfl, ?_, rfl, ?_⟩ <;> · intro h; revert h; decide

/-- C3 (amended): when no record's name contains the anchor name
(case-insensitively), `find_similar_cocktails_by_flavor` and
`get_ingredient_recommendations` log a warning and return a successful empty
list — there is no NotFound error distinct from an empty success — and never
a partial list. -/
theorem C3_missing_anchor_returns_empty (st : Store) (db : DbBehavior)
    (nm : String) (mx : Nat) (thr : ℚ) (hc : db.connectOk = true)
    (ha : db.anchorFails = false) (hl : anchorLookup st.cocktails nm = none) :
    (find_similar_cocktails_by_flavor st db nm mx thr).out = .ok [] ∧
    (get_ingredient_recommendations st db nm mx).out = .ok [] := by
  constructor
  · unfold find_similar_cocktails_by_flavor withConnCursor find_similar_try
    simp [hc, ha, hl, handleExcept]
  · unfold get_ingredient_recommendations withConnCursor ingredient_recs_try
    simp [hc, ha, hl, handleExcept]

/-- C3 (witness): the amended theorem applied at a store that does not
contain the anchor "Negroni". -/
theorem C3_missing_anchor_returns_empty_witness :
    (find_similar_cocktails_by_flavor stMargarita dbAllEmpty "Negroni" 10 (7/10)).out
      = .ok [] ∧
    (get_ingredient_recommendations stMargarita dbAllEmpty "Negroni" 10).out = .ok [] :=
  C3_missing_anchor_returns_empty stMargarita dbAllEmpty "Negroni" 10 (7/10)
    rfl rfl (by decide)

/-- C4 (counterexample): called with abvMin = 20 > abvMax = 10, the
preference query does not fail with InvalidArgument before querying the
store: the store is queried with the inverted bounds as given and a (empty)
result list is returned successfully — contradicting the claim at this
concrete input. -/
theorem C4_cx_inverted_range_not_rejected :
    (find_cocktails_by_preferences stMargarita dbAllEmpty 20 10 none none 15).out
      = .ok ([] : List PrefDict) ∧
    (find_cocktails_by_preferences stMargarita dbAllEmpty 20 10 none none 15).trace
      = [Stmt.selectByPreferences 20 10 [] [] 15] ∧
    (10 : ℚ) < 20 := by
  refine ⟨rfl, rfl, by norm_num⟩

/-- C4 (amended): `find_cocktails_by_preferences` performs no validation of
the strength range: for any bounds, including min > max, it queries the
store with the bounds exactly as given (not swapped) and returns the store's
rows as a successful list. -/
theorem C4_no_range_validation (st : Store) (db : DbBehavior) (minS maxS : ℚ)
    (exc req : List String) (mx : Nat) (rows : List PrefRow)
    (hc : db.connectOk = true) (hr : db.prefResp = .ok rows) :
    (find_cocktails_by_preferences st db minS maxS (some exc) (some req) mx).out
      = .ok (rows.map prefRowToDict) ∧
    (find_cocktails_by_preferences st db minS maxS (some exc) (some req) mx).trace
      = [Stmt.selectByPreferences minS maxS exc req mx] := by
  unfold find_cocktails_by_preferences withConnCursor
  simp [hc, hr, handleExcept]

/-- C4 (witness): the amended theorem applied at the inverted bounds
`abvMin = 20, abvMax = 10`. -/
theorem C4_no_range_validation_witness :
    (find_cocktails_by_preferences stMargarita dbAllEmpty 20 10
      (some []) (some []) 15).out = .ok (([] : List PrefRow).map prefRowToDict) ∧
    (find_cocktails_by_preferences stMargarita dbAllEmpty 20 10
      (some []) (some []) 15).trace = [Stmt.selectByPreferences 20 10 [] [] 15] :=
  C4_no_range_validation stMargarita dbAllEmpty 20 10 [] [] 15 [] rfl rfl

/-- C5 (counterexample): in a store whose scan order lists
`(2, "Margarita Spritz")` before `(1, "Margarita")`, resolving the anchor
"margarita" picks record 2, even though record 1 is the exact
case-insensitive-equality match (and is also first by ascending id) —
contradicting the claimed deterministic preference at this concrete input. -/
theorem C5_cx_exact_match_not_preferred :
    anchorLookup stTwoMargaritas.cocktails "margarita" = some 2 ∧
    lowerChars "Margarita" = lowerChars "margarita" ∧
    (find_similar_cocktails_by_flavor stTwoMargaritas dbAllEmpty "margarita" 10 (7/10)).trace
      = [Stmt.selectCocktailIdByName "margarita", Stmt.selectSimilarByFlavor 2 (7/10) 10] ∧
    (2 : Nat) ≠ 1 := by
  refine ⟨by decide, by decide, rfl, by decide⟩

/-- C5 (amended): anchor resolution matches the pattern case-insensitively as
a substring of record names, and — the query being `LIMIT 1` without `ORDER
BY` — returns the first matching row in the store's scan order, with no
preference for exact equality and no id ordering; for a fixed snapshot scan
order it is a deterministic function of the store and the pattern. -/
theorem C5_anchor_first_match_in_scan_order (rows : List (Nat × String)) (pat : String) :
    (∀ i : Nat, anchorLookup rows pat = some i ↔
      ∃ pre r post, rows = pre ++ r :: post ∧ ilikeContains r.2 pat = true ∧ r.1 = i ∧
        ∀ r' ∈ pre, ilikeContains r'.2 pat = false) ∧
    (anchorLookup rows pat = none ↔ ∀ r ∈ rows, ilikeContains r.2 pat = false) := by
  induction rows with
  | nil =>
    constructor
    · intro i
      constructor
      · intro h; exact absurd h (by simp [anchorLookup])
      · rintro ⟨pre, r, post, heq, -, -, -⟩
        exact absurd heq (by simp)
    · simp [anchorLookup]
  | cons x xs ih =>
    by_cases hx : ilikeContains x.2 pat
    · constructor
      · intro i
        constructor
        · intro h
          rw [show anchorLookup (x :: xs) pat = some x.1 by simp [anchorLookup, hx]] at h
          obtain rfl : x.1 = i := Option.some_injective _ h
          exact ⟨[], x, xs, rfl, hx, rfl, by simp⟩
        · rintro ⟨pre, r, post, heq, hr, hi, hpre⟩
          cases pre with
          | nil =>
            simp only [List.nil_append, List.cons.injEq] at heq
            obtain ⟨rfl, rfl⟩ := heq
            simp [anchorLookup, hx, hi]
          | cons p pre' =>
            simp only [List.cons_append, List.cons.injEq] at heq
            obtain ⟨rfl, -⟩ := heq
            exact absurd (hpre x (by simp)) (by simp [hx])
      · constructor
        · intro h
          rw [show anchorLookup (x :: xs) pat = some x.1 by simp [anchorLookup, hx]] at h
          exact absurd h (by simp)
        · intro h
          exact absurd (h x (by simp)) (by simp [hx])
    · have hstep : anchorLookup (x :: xs) pat = anchorLookup xs pat := by
        simp [anchorLookup, hx]
      constructor
      · intro i
        rw [hstep, ih.1 i]
        constructor
        · rintro ⟨pre, r, post, heq, hr, hi, hpre⟩
          refine ⟨x :: pre, r, post, by rw [heq]; rfl, hr, hi, ?_⟩
          intro r' hr'
          rcases List.mem_cons.mp hr' with h1 | h1
          · subst h1; simpa using hx
          · exact hpre r' h1
        · rintro ⟨pre, r, post, heq, hr, hi, hpre⟩
          cases pre with
          | nil =>
            simp only [List.nil_append, List.cons.injEq] at heq
            obtain ⟨rfl, rfl⟩ := heq
            exact absurd hr (by simpa using hx)
          | cons p pre' =>
            simp only [List.cons_append, List.cons.injEq] at heq
            obtain ⟨-, hxs⟩ := heq
            exact ⟨pre', r, post, hxs, hr, hi, fun r' h1 => hpre r' (by simp [h1])⟩
      · rw [hstep, ih.2]
        constructor
        · intro h r hr
          rcases List.mem_cons.mp hr with h1 | h1
          · subst h1; simpa using hx
          · exact h r h1
        · intro h r hr
          exact h r (by simp [hr])

/-- C6 (confirmed, spec-modelled): under the spec's score model — every score
column holds a cosine of two stored embedding vectors rescaled to `[0,1]` —
every match returned by the three similarity operations carries a
`similarity_score` in `[0,1]`. -/
theorem C6_similarity_scores_in_unit_interval (st : Store) (db : DbBehavior)
    (h : SpecScores db) (nm txt : String) (mx : Nat) (thr : ℚ)
    (ms ms2 : List CocktailMatch) (ims : List IngredientMatch)
    (m m2 : CocktailMatch) (im : IngredientMatch) :
    ((find_similar_cocktails_by_flavor st db nm mx thr).out = .ok ms → m ∈ ms →
      0 ≤ m.similarity_score ∧ m.similarity_score ≤ 1) ∧
    ((search_cocktails_by_flavor_description st db txt mx thr).out = .ok ms2 → m2 ∈ ms2 →
      0 ≤ m2.similarity_score ∧ m2.similarity_score ≤ 1) ∧
    ((get_ingredient_recommendations st db nm mx).out = .ok ims → im ∈ ims →
      0 ≤ im.similarity_score ∧ im.similarity_score ≤ 1) := by
  refine ⟨?_, ?_, ?_⟩
  · intro ho hm
    rcases find_similar_out_cases st db nm mx thr ms ho with rfl | ⟨rows, hr, rfl⟩
    · exact absurd hm (List.not_mem_nil m)
    · obtain ⟨r, hrm, rfl⟩ := List.mem_map.mp hm
      have hb := scoreValid_bounds (h.1 rows hr r hrm)
      simpa [rowToMatch] using hb
  · intro ho hm
    rcases search_text_out_cases st db txt mx thr ms2 ho with rfl | ⟨rows, hr, rfl⟩
    · exact absurd hm (List.not_mem_nil m2)
    · obtain ⟨r, hrm, rfl⟩ := List.mem_map.mp hm
      have hb := scoreValid_bounds (h.2.1 rows hr r hrm)
      simpa [textRowToMatch] using hb
  · intro ho hm
    rcases ing_recs_out_cases st db nm mx ims ho with rfl | ⟨rows, hr, rfl⟩
    · exact absurd hm (List.not_mem_nil im)
    · obtain ⟨r, hrm, rfl⟩ := List.mem_map.mp hm
      have hb := scoreValid_bounds (h.2.2 rows hr r hrm)
      simpa [ingRecRowToMatch] using hb

/-- C6 (witness): the theorem applied at a behaviour returning one row of
score `1` (cosine of a vector with itself). -/
theorem C6_similarity_scores_in_unit_interval_witness :
    0 ≤ (rowToMatch wRowScoreOne).similarity_score ∧
      (rowToMatch wRowScoreOne).similarity_score ≤ 1 :=
  (C6_similarity_scores_in_unit_interval stMargarita dbScoreOne
    (by
      refine ⟨?_, ?_, ?_⟩
      · intro rows hr r hrm
        simp only [dbScoreOne, dbAllEmpty] at hr
        obtain rfl : ([wRowScoreOne] : List SimilarRow) = rows := by
          injection hr
        have : r = wRowScoreOne := by simpa using hrm
        subst this
        show ScoreValid (1 : ℚ)
        exact scoreValid_one
      · intro rows hr r hrm
        simp only [dbScoreOne, dbAllEmpty] at hr
        obtain rfl : ([] : List TextRow) = rows := by injection hr
        exact absurd hrm (List.not_mem_nil r)
      · intro rows hr r hrm
        simp only [dbScoreOne, dbAllEmpty] at hr
        obtain rfl : ([] : List IngRecRow) = rows := by injection hr
        exact absurd hrm (List.not_mem_nil r))
    "Margarita" "tropical" 10 (7/10) [rowToMatch wRowScoreOne] []
    [] (rowToMatch wRowScoreOne) (rowToMatch wRowScoreOne)
    ⟨0, "", 0, "", "", none⟩).1 rfl (by simp)

/-- The spec's worked example evaluated: gin, lime, soda queried against
gin and lime gives matched 2, total 3, fraction 2/3. -/
theorem scoreRecord_example :
    scoreRecord ["gin", "lime"] ginRickey =
      { record := ginRickey, matchedCount := 2, totalCount := 3, matchFraction := 2/3 } := by
  have hm : matchedCountOf ["gin", "lime"] ginRickey.ingredients = 2 := by decide
  have ht : ginRickey.ingredients.length = 3 := by decide
  simp only [scoreRecord, hm, ht, OverlapEntry.mk.injEq]
  norm_num

/-- The worked example's entry is returned by the overlap matcher. -/
theorem findByIngredients_example_mem :
    scoreRecord ["gin", "lime"] ginRickey ∈ findByIngredients [ginRickey] ["gin", "lime"] 0 15 := by
  have hfr : (0 : ℚ) ≤ (scoreRecord ["gin", "lime"] ginRickey).matchFraction := by
    simp only [scoreRecord]
    split
    · exact le_refl 0
    · positivity
  unfold findByIngredients
  simp only [List.map_cons, List.map_nil, List.filter_cons, List.filter_nil,
    decide_eq_true hfr, if_true, sortEntries, insertEntry]
  exact List.mem_cons_self _ _

/-- C7 (confirmed, spec-modelled): every entry returned by the overlap
matcher carries its source record with `matchedCount`, `totalCount` and
`matchFraction = matchedCount / totalCount` (defined as `0` when
`totalCount = 0`); on the spec's example — ingredients gin, lime, soda
queried against gin and lime — the entry is `(2, 3, 2/3)`. -/
theorem C7_match_fraction_of_entries (recs : List CocktailRec) (query : List String)
    (minFrac : ℚ) (maxR : Nat) (e : OverlapEntry)
    (h : e ∈ findByIngredients recs query minFrac maxR) :
    (∃ r ∈ recs, e.record = r) ∧
    e.matchedCount = matchedCountOf query e.record.ingredients ∧
    e.totalCount = e.record.ingredients.length ∧
    e.matchFraction = (if e.totalCount = 0 then 0 else (e.matchedCount : ℚ) / e.totalCount) ∧
    scoreRecord ["gin", "lime"] ginRickey =
      { record := ginRickey, matchedCount := 2, totalCount := 3, matchFraction := 2/3 } := by
  obtain ⟨r, hr, rfl⟩ := mem_findByIngredients h
  refine ⟨⟨r, hr, rfl⟩, ?_, ?_, ?_, scoreRecord_example⟩
  · simp [scoreRecord]
  · simp [scoreRecord]
  · simp [scoreRecord]

/-- C7 (witness): the theorem applied at the spec's worked example. -/
theorem C7_match_fraction_of_entries_witness :
    (∃ r ∈ [ginRickey], (scoreRecord ["gin", "lime"] ginRickey).record = r) ∧
    (scoreRecord ["gin", "lime"] ginRickey).matchedCount
      = matchedCountOf ["gin", "lime"] (scoreRecord ["gin", "lime"] ginRickey).record.ingredients ∧
    (scoreRecord ["gin", "lime"] ginRickey).totalCount
      = (scoreRecord ["gin", "lime"] ginRickey).record.ingredients.length ∧
    (scoreRecord ["gin", "lime"] ginRickey).matchFraction
      = (if (scoreRecord ["gin", "lime"] ginRickey).totalCount = 0 then 0
         else ((scoreRecord ["gin", "lime"] ginRickey).matchedCount : ℚ)
           / (scoreRecord ["gin", "lime"] ginRickey).totalCount) ∧
    scoreRecord ["gin", "lime"] ginRickey =
      { record := ginRickey, matchedCount := 2, totalCount := 3, matchFraction := 2/3 } :=
  C7_match_fraction_of_entries [ginRickey] ["gin", "lime"] 0 15
    (scoreRecord ["gin", "lime"] ginRickey) findByIngredients_example_mem

/-- Closing behaviour of `search_cocktails_by_flavor_description`: the
conditional `finally` leaves nothing open on any exit path. -/
theorem search_text_closed (st : Store) (db : DbBehavior) (txt : String)
    (mx : Nat) (thr : ℚ) :
    (search_cocktails_by_flavor_description st db txt mx thr).connOpen = false ∧
    (search_cocktails_by_flavor_description st db txt mx thr).curOpen = false := by
  unfold search_cocktails_by_flavor_description
  by_cases he : embTruthy (get_embedding db.embedSvc txt) = false
  · simp [he]
  · by_cases hc : db.connectOk
    · cases hr : db.textResp <;> simp [he, hc, hr]
    · simp [he, hc]

/-- C8 (confirmed): every query operation ends with the connection and the
cursor released, on every exit path — success, empty result, raised storage
statement, or failed connection. -/
theorem C8_connection_released_on_all_paths (st : Store) (db : DbBehavior)
    (nm txt : String) (mx : Nat) (thr minS maxS : ℚ) (ings : List String)
    (exc req : Option (List String)) (cid : Nat) :
    ((find_similar_cocktails_by_flavor st db nm mx thr).connOpen = false ∧
     (find_similar_cocktails_by_flavor st db nm mx thr).curOpen = false) ∧
    ((search_cocktails_by_flavor_description st db txt mx thr).connOpen = false ∧
     (search_cocktails_by_flavor_description st db txt mx thr).curOpen = false) ∧
    ((find_cocktails_by_ingredient_similarity st db ings thr mx).connOpen = false ∧
     (find_cocktails_by_ingredient_similarity st db ings thr mx).curOpen = false) ∧
    ((get_ingredient_recommendations st db nm mx).connOpen = false ∧
     (get_ingredient_recommendations st db nm mx).curOpen = false) ∧
    ((find_cocktails_by_preferences st db minS maxS exc req mx).connOpen = false ∧
     (find_cocktails_by_preferences st db minS maxS exc req mx).curOpen = false) ∧
    ((get_cocktail_details st db cid).connOpen = false ∧
     (get_cocktail_details st db cid).curOpen = false) :=
  ⟨withConnCursor_closed db [] _,
   search_text_closed st db txt mx thr,
   withConnCursor_closed db [] _,
   withConnCursor_closed db [] _,
   withConnCursor_closed db [] _,
   withConnCursor_closed db none _⟩

/-- C9 (confirmed): every statement a query operation issues is a read
(SELECT), so replaying any operation's statement trace against the store
leaves the store unchanged — only the external loader's upsert statement
writes. -/
theorem C9_queries_leave_store_unchanged (st : Store) (db : DbBehavior)
    (nm txt : String) (mx : Nat) (thr minS maxS : ℚ) (ings : List String)
    (exc req : Option (List String)) (cid : Nat) :
    runTrace st (find_similar_cocktails_by_flavor st db nm mx thr).trace = st ∧
    runTrace st (search_cocktails_by_flavor_description st db txt mx thr).trace = st ∧
    runTrace st (find_cocktails_by_ingredient_similarity st db ings thr mx).trace = st ∧
    runTrace st (get_ingredient_recommendations st db nm mx).trace = st ∧
    runTrace st (find_cocktails_by_preferences st db minS maxS exc req mx).trace = st ∧
    runTrace st (get_cocktail_details st db cid).trace = st :=
  ⟨runTrace_of_reads (find_similar_trace_reads st db nm mx thr) st,
   runTrace_of_reads (search_text_trace_reads st db txt mx thr) st,
   runTrace_of_reads (ing_sim_trace_reads st db ings thr mx) st,
   runTrace_of_reads (ing_recs_trace_reads st db nm mx) st,
   runTrace_of_reads (pref_trace_reads st db minS maxS exc req mx) st,
   runTrace_of_reads (details_trace_reads st db cid) st⟩

/-- C10 (confirmed): the truthiness-based conversions return `None` for a
stored value of exactly `0`, so a result row with abv `0` (or ingredient
strength `0`) is indistinguishable from one with a NULL column. -/
theorem C10_zero_abv_returned_as_null (sr : SimilarRow) (ir : IngRecRow) (dr : DetailRow) :
    (rowToMatch { sr with abv := some 0 }).abv = none ∧
    rowToMatch { sr with abv := some 0 } = rowToMatch { sr with abv := none } ∧
    (ingRecRowToMatch { ir with strength := some 0 }).strength = none ∧
    ingRecRowToMatch { ir with strength := some 0 }
      = ingRecRowToMatch { ir with strength := none } ∧
    (detailRowToDict { dr with abv := some 0 }).abv = none ∧
    detailRowToDict { dr with abv := some 0 } = detailRowToDict { dr with abv := none } := by
  refine ⟨?_, ?_, ?_, ?_, ?_, ?_⟩ <;>
    simp [rowToMatch, ingRecRowToMatch, detailRowToDict, pyTruthyFloat]
